import Mathlib

/-!
Verification of the Record journaling application.

This file gives a shallow embedding, in Lean 4, of the core logic of the
Record repository — the task-normalization pipeline, the post-analysis
task merge, the entry store, the mood/color resolver, and the analysis
client with its fallback policy — and proves (or refutes) the testable
properties stated in the project specification.

Modelling conventions:
* JavaScript strings are Lean `String`s; `String.prototype.includes` and
  `String.prototype.startsWith` are modelled over the underlying character
  lists so that every predicate is kernel-decidable.
* JavaScript nullish values (`null` / `undefined`) are `Option`.
* The JavaScript `x || d` defaulting idiom is modelled by `jsOrS` / `jsOrN`,
  which treat the falsy values `""` and `0` (and `none`) as absent.
* The browser's `localStorage` entry collection is passed explicitly as a
  `List JournalEntry` (the JSON array stored under the single storage key);
  `Date.now()` is passed explicitly as a `Nat` parameter wherever the source
  calls it.
* The analysis client's network effects are modelled by threading the
  provider's behaviour (`WhisperOutcome`, `ProviderOutcome`) as parameters
  that are consulted only when an HTTP request is actually issued, and by
  returning the number of HTTP requests issued alongside the result.
  Thrown JavaScript exceptions are `Except.error` carrying the error
  message; the exported analysis entry point catches everything and is a
  total function, mirroring the source's catch-all fallback policy.
-/

namespace RecordApp

/-- Character-list test that `pat` occurs at the start of `s`
(the model of JavaScript `String.prototype.startsWith`). -/
def charsStartWith : List Char → List Char → Bool
  | _, [] => true
  | [], _ :: _ => false
  | a :: as, b :: bs => a == b && charsStartWith as bs

/-- Character-list test that `pat` occurs contiguously somewhere in `s`
(the model of JavaScript `String.prototype.includes`). -/
def charsInclude : List Char → List Char → Bool
  | [], pat => pat.isEmpty
  | s@(_ :: rest), pat => charsStartWith s pat || charsInclude rest pat

/-- Model of JavaScript `s.startsWith(pat)`. -/
def strStartsWith (s pat : String) : Bool :=
  charsStartWith s.data pat.data

/-- Model of JavaScript `s.includes(pat)`. -/
def strIncludes (s pat : String) : Bool :=
  charsInclude s.data pat.data

/-- Model of the JavaScript `x || d` idiom for string-valued fields:
`null`/`undefined` and the empty string are falsy and select the default. -/
def jsOrS (v : Option String) (d : String) : String :=
  match v with
  | some s => if s = "" then d else s
  | none => d

/-- Model of the JavaScript `x || d` idiom for number-valued fields:
`null`/`undefined` and `0` are falsy and select the default. -/
def jsOrN (v : Option Nat) (d : Nat) : Nat :=
  match v with
  | some n => if n = 0 then d else n
  | none => d

/-! ## Data model (src/unnamed/part_002, types.ts) -/

/-- Structured task item: `TaskItem` of types.ts. -/
structure TaskItem where
  id : String
  text : String
  completed : Bool
deriving DecidableEq, Repr, Inhabited

/-- A value persisted in an entry's `tasks` field.  The declared TypeScript
type is `TaskItem[]`, but legacy persisted entries hold plain strings, so at
runtime an element is either a plain string or a structured item; the source
discriminates with `typeof tasks[0] === 'string'`. -/
inductive RawTask where
  | str (s : String)
  | item (t : TaskItem)
deriving DecidableEq, Repr

/-- Whether a raw task element is a plain (legacy) string,
the model of `typeof x === 'string'`. -/
def RawTask.isLegacyString : RawTask → Bool
  | .str _ => true
  | .item _ => false

/-- Whether a raw task element is a structured item. -/
def RawTask.isItem (r : RawTask) : Bool :=
  !r.isLegacyString

/-- The value placed by the legacy-migration map into the `text` field.  For
a plain string it is the string itself; for a structured item (reachable only
through a mixed-shape list, which well-formed persisted data never produces)
we model the value by its JavaScript string coercion. -/
def RawTask.jsText : RawTask → String
  | .str s => s
  | .item _ => "[object Object]"

/-- `JournalEntry` of types.ts.  `audioBase64?` is optional; `moodScore` is a
number (integer 1-10 per the schema); `tasks` holds raw task values to cover
legacy persisted shapes. -/
structure JournalEntry where
  id : String
  date : String
  audioBase64 : Option String
  images : List String
  transcription : String
  moodEmoji : String
  moodDescription : String
  moodKey : String
  moodScore : Nat
  tasks : List RawTask
  createdAt : Nat
deriving DecidableEq, Repr

/-- `AnalysisResult` of types.ts: the structured outcome of one analysis
call, with raw un-identified task strings. -/
structure AnalysisResult where
  transcription : String
  moodEmoji : String
  moodDescription : String
  moodKey : String
  moodScore : Nat
  tasks : List String
deriving DecidableEq, Repr

/-! ## Task normalization (src/unnamed/part_000 `getTasksForEntry`,
src/unnamed/part_001 `normalizeTasks`) -/

/-- Detection rule shared by both normalizers:
`tasks.length > 0 && typeof tasks[0] === 'string'`. -/
def headIsLegacyString : List RawTask → Bool
  | .str _ :: _ => true
  | _ => false

/-- The legacy-migration map
`tasks.map((t, i) => ({ id: `legacy-<tag>-<i>`, text: t, completed: false }))`,
with the running element index made explicit.  `getTasksForEntry` instantiates
`tag` with the entry's date; `normalizeTasks` instantiates it with
`Date.now()` rendered as a string. -/
def legacyMap (tag : String) : Nat → List RawTask → List RawTask
  | _, [] => []
  | i, r :: rest =>
      .item ⟨"legacy-" ++ tag ++ "-" ++ toString i, r.jsText, false⟩
        :: legacyMap tag (i + 1) rest

/-- `getTasksForEntry` of src/unnamed/part_000 (CalendarView), lines 64-75:
`if (!entry.tasks) return []`, then if the list is non-empty and its first
element is a plain string, migrate the entire list with ids
`legacy-<entry.date>-<index>`; otherwise return the list unchanged.  The
entry's date and tasks field are the only inputs read. -/
def getTasksForEntry (date : String) (tasks : Option (List RawTask)) : List RawTask :=
  match tasks with
  | none => []
  | some ts => if headIsLegacyString ts then legacyMap date 0 ts else ts

/-- `normalizeTasks` of src/unnamed/part_001 (RecordView), lines 30-38:
`if (!tasks) return []; if (tasks.length === 0) return []`, then if the first
element is a plain string, migrate the entire list with ids
`legacy-<Date.now()>-<index>`; otherwise return the list unchanged.  `now`
is the value of `Date.now()` at the moment of the call. -/
def normalizeTasks (now : Nat) (tasks : Option (List RawTask)) : List RawTask :=
  match tasks with
  | none => []
  | some ts =>
    if ts.length = 0 then []
    else if headIsLegacyString ts then legacyMap (toString now) 0 ts else ts

/-! ## Post-analysis task merge (src/unnamed/part_001 `handleAnalyze`,
lines 253-268) -/

/-- The conversion of the analysis result's raw task strings,
`analysis.tasks.map((t, i) => ({ id: `ai-<now>-<i>`, text: t, completed: false }))`,
with the running element index made explicit. -/
def aiMap (now : Nat) : Nat → List String → List TaskItem
  | _, [] => []
  | i, t :: rest =>
      ⟨"ai-" ++ toString now ++ "-" ++ toString i, t, false⟩ :: aiMap now (i + 1) rest

/-- The task merge performed by `handleAnalyze`:
`const prevTasks = moodData?.tasks || []; const mergedTasks = [...prevTasks, ...aiTasks]`.
`now` is the value of `Date.now()` when the ai task ids are minted. -/
def mergeAnalyzedTasks (now : Nat) (prevTasks : List TaskItem) (aiStrings : List String) :
    List TaskItem :=
  prevTasks ++ aiMap now 0 aiStrings

/-! ## Entry store (src/services/storage.ts)

The store state is the JSON array persisted under the single storage key
`soullog_entries_v1`; each operation is modelled on its success path (the
`localStorage.setItem` capacity failure leaves the stored array unchanged
and is outside these claims). -/

/-- `saveEntry`: filter out any existing entry with the same date, then push
the new entry at the end. -/
def saveEntry (entry : JournalEntry) (store : List JournalEntry) : List JournalEntry :=
  (store.filter fun e => e.date != entry.date) ++ [entry]

/-- `getEntries`: parse and return the whole stored array. -/
def getEntries (store : List JournalEntry) : List JournalEntry :=
  store

/-- `getEntryByDate`: first stored entry with the given date, if any. -/
def getEntryByDate (date : String) (store : List JournalEntry) : Option JournalEntry :=
  (getEntries store).find? fun e => e.date == date

/-- `deleteEntry`: remove every entry with the given date. -/
def deleteEntry (date : String) (store : List JournalEntry) : List JournalEntry :=
  store.filter fun e => e.date != date

/-! ## Mood palette system (src/utils.ts, and the label rendering of
src/unnamed/part_001 lines 487-490) -/

/-- Intensity tier of a mood color triplet. -/
inductive MoodIntensity where
  | light
  | medium
  | strong
deriving DecidableEq, Repr

/-- One mood's color triplet (`MoodColorDefinition` of utils.ts). -/
structure MoodColorDefinition where
  light : String
  medium : String
  strong : String
deriving DecidableEq, Repr, Inhabited

/-- Field selection `def[type]` on a color triplet. -/
def MoodColorDefinition.select (c : MoodColorDefinition) : MoodIntensity → String
  | .light => c.light
  | .medium => c.medium
  | .strong => c.strong

/-- `MOOD_PALETTE` of utils.ts, modelled as the partial lookup
`key => MOOD_PALETTE[key]` on the record's seven keys. -/
def MOOD_PALETTE : String → Option MoodColorDefinition
  | "happy" => some ⟨"#FFF5D1", "#FFD166", "#F4B942"⟩
  | "calm" => some ⟨"#E0F5F5", "#A8DADC", "#457B9D"⟩
  | "neutral" => some ⟨"#F2F0E9", "#A3A398", "#5C5C54"⟩
  | "sad" => some ⟨"#E3E6F5", "#7D8CC4", "#5C6AA8"⟩
  | "anxious" => some ⟨"#FFEBD6", "#F4A261", "#E76F51"⟩
  | "angry" => some ⟨"#FFE0DB", "#E76F51", "#C0392B"⟩
  | "tired" => some ⟨"#E8EDF2", "#94A3B8", "#475569"⟩
  | _ => none

/-- `MOOD_LABELS` of utils.ts, modelled as the partial lookup
`key => MOOD_LABELS[key]`. -/
def MOOD_LABELS : String → Option String
  | "happy" => some "开心"
  | "calm" => some "平静"
  | "neutral" => some "平淡"
  | "sad" => some "低落"
  | "anxious" => some "焦虑"
  | "angry" => some "生气"
  | "tired" => some "疲惫"
  | _ => none

/-- The guard `const safeKey = MOOD_PALETTE[key] ? key : 'neutral'` shared by
both color resolvers. -/
def safeMoodKey (key : String) : String :=
  if (MOOD_PALETTE key).isSome then key else "neutral"

/-- The color triplet actually indexed after the safe-key guard.  The `getD`
default is unreachable: `safeMoodKey` always lands on a present key. -/
def moodPaletteOf (key : String) : MoodColorDefinition :=
  (MOOD_PALETTE (safeMoodKey key)).getD default

/-- `getMoodColor` of utils.ts, lines 76-79.  The `score` argument is
accepted and ignored, as in the source. -/
def getMoodColor (key : String) (score : Nat) (type : MoodIntensity) : String :=
  (moodPaletteOf key).select type

/-- `getMoodColorByScore` of utils.ts, lines 81-86: bucket the score into a
tier with `score >= 8 → strong`, `score >= 4 → medium`, else `light`. -/
def getMoodColorByScore (key : String) (score : Nat) : String :=
  if 8 ≤ score then (moodPaletteOf key).strong
  else if 4 ≤ score then (moodPaletteOf key).medium
  else (moodPaletteOf key).light

/-- The Chinese mood label rendered by RecordView (src/unnamed/part_001
lines 487-490): `MOOD_LABELS[moodData.key] || moodData.key` — an
unrecognized key falls back to the raw key string itself.  (The English
branch renders `moodData.key` directly.) -/
def moodLabelZh (key : String) : String :=
  jsOrS (MOOD_LABELS key) key

/-! ## Analysis client (src/unnamed/part_002, geminiService.ts)

HTTP behaviour is modelled by outcome parameters that are consulted only
when a request is actually issued; each call-site returns the number of
requests it issued.  A thrown exception is an `Except.error` carrying the
JavaScript error's message. -/

/-- The parsed JSON object returned by the chat-completion call in JSON
mode.  Each field is optional: `none` covers a field that is absent from
the response (the JavaScript falsy values `""` and `0` are folded back in
by `jsOrS`/`jsOrN` at the use sites, mirroring `parsed.x || d`). -/
structure ParsedAnalysis where
  transcription : Option String
  moodEmoji : Option String
  moodDescription : Option String
  moodKey : Option String
  moodScore : Option Nat
  tasks : Option (List String)
deriving DecidableEq, Repr

/-- Behaviour of one issued chat-completion request, covering the whole
pipeline `fetch` → HTTP status check → `JSON.parse` of the message content:
`success` is a parsed structured response; `failure` is any thrown error
(transport failure, non-ok HTTP status with the envelope's
`err.error?.message`, or malformed JSON), carrying the error message. -/
inductive ProviderOutcome where
  | success (parsed : ParsedAnalysis)
  | failure (errMsg : String)
deriving DecidableEq, Repr

/-- Behaviour of one issued Whisper transcription request: transcript text
on success, or the thrown error's message. -/
inductive WhisperOutcome where
  | success (text : String)
  | failure (errMsg : String)
deriving DecidableEq, Repr

/-- `DEFAULT_KEY` of geminiService.ts: empty in distributed builds. -/
def DEFAULT_KEY : String := ""

/-- `getApiKey`: prefer a stored key that is non-empty and starts with
`sk-`; otherwise fall back to `process.env.API_KEY || DEFAULT_KEY`
(`stored` is `localStorage.getItem("openai_api_key")`, `envKey` the
build-time `process.env.API_KEY`, defined as `""` in the vite config). -/
def getApiKey (stored : Option String) (envKey : String) : String :=
  match stored with
  | some s =>
      if s ≠ "" ∧ strStartsWith s "sk-" = true then s
      else if envKey ≠ "" then envKey else DEFAULT_KEY
  | none => if envKey ≠ "" then envKey else DEFAULT_KEY

/-- `isQuotaError`: match the known quota/billing markers in the error
message. -/
def isQuotaError (msg : String) : Bool :=
  strIncludes msg "quota" || strIncludes msg "429" ||
    strIncludes msg "billing" || strIncludes msg "insufficient_quota"

/-- The fixed demo transcription inside `getMockAnalysis`. -/
def mockDemoText : String :=
  "今天天气真不错，心情也很好。虽然工作有点忙，但还是抽出时间去公园散步了。感觉到久违的放松。"

/-- `getMockAnalysis`: the demo fallback returned on quota errors.
`transcription` is `text || <fixed demo sentence>`. -/
def getMockAnalysis (text : String) : AnalysisResult :=
  { transcription := if text = "" then mockDemoText else text
    moodEmoji := "🌤️"
    moodDescription := "演示模式(需配置Key)"
    moodKey := "happy"
    moodScore := 8
    tasks := ["Go to Settings", "Enter OpenAI API Key"] }

/-- The message of the error thrown by `callGPT`/`callWhisper` when no
credential is configured. -/
def keyMissingMsg : String := "API Key missing. Please set it in Settings."

/-- `callWhisper`: throw before any network traffic when the credential is
empty; otherwise issue exactly one HTTP request whose outcome is the
environment's behaviour. -/
def callWhisper (apiKey : String) (whisper : WhisperOutcome) :
    Except String String × Nat :=
  if apiKey = "" then (.error keyMissingMsg, 0)
  else
    match whisper with
    | .success t => (.ok t, 1)
    | .failure e => (.error e, 1)

/-- `callGPT` (in JSON mode, composed with the `JSON.parse` at its only
analysis call-site): throw before any network traffic when the credential
is empty; otherwise issue exactly one HTTP request whose outcome is the
environment's behaviour. -/
def callGPT (apiKey : String) (outcome : ProviderOutcome) :
    Except String ParsedAnalysis × Nat :=
  if apiKey = "" then (.error keyMissingMsg, 0)
  else
    match outcome with
    | .success p => (.ok p, 1)
    | .failure e => (.error e, 1)

/-- Step 1 of `analyzeJournalEntry`: if audio is present, transcribe it and
merge the transcript into the text input; on transcription failure append a
locale-appropriate failure note instead of aborting.  Returns the composed
text and the number of HTTP requests issued. -/
def composeFinalText (apiKey : String) (audioBase64 : Option String)
    (whisper : WhisperOutcome) (textInput : String) : String × Nat :=
  match audioBase64 with
  | none => (textInput, 0)
  | some _ =>
    let (r, n) := callWhisper apiKey whisper
    match r with
    | .ok audioText =>
        (if textInput = "" then audioText
         else textInput ++ "\n\n[语音记录]: " ++ audioText, n)
    | .error err =>
        (textInput ++
          (if isQuotaError err then "\n(语音转文字演示：API额度已耗尽)"
           else "\n(语音转文字失败：请检查Key)"), n)

/-- `analyzeJournalEntry` of geminiService.ts: compose the final
transcription (step 1), call the provider in JSON mode (steps 2-3), default
every missing response field, and on any thrown error return either the
quota demo mock or the generic neutral fallback (step 4).  The function is
total — no behaviour of the environment makes it raise — and it also
returns the number of HTTP requests issued.  The `images` argument only
feeds the outbound payload and does not influence the modelled result. -/
def analyzeJournalEntry (stored : Option String) (envKey : String)
    (audioBase64 : Option String) (textInput : String) (images : List String)
    (whisper : WhisperOutcome) (gpt : ProviderOutcome) : AnalysisResult × Nat :=
  let apiKey := getApiKey stored envKey
  let fw := composeFinalText apiKey audioBase64 whisper textInput
  let gw := callGPT apiKey gpt
  match gw.1 with
  | .ok parsed =>
      ({ transcription := jsOrS parsed.transcription fw.1
         moodEmoji := jsOrS parsed.moodEmoji "📝"
         moodDescription := jsOrS parsed.moodDescription "记录中"
         moodKey := jsOrS parsed.moodKey "neutral"
         moodScore := jsOrN parsed.moodScore 5
         tasks := parsed.tasks.getD [] }, fw.2 + gw.2)
  | .error err =>
      if isQuotaError err then (getMockAnalysis textInput, fw.2 + gw.2)
      else
        ({ transcription := if textInput = "" then "[分析未完成]" else textInput
           moodEmoji := "⚙️"
           moodDescription := "请配置Key"
           moodKey := "neutral"
           moodScore := 5
           tasks := [] }, fw.2 + gw.2)

/-! ## Helper lemmas -/

theorem legacyMap_length (tag : String) (k : Nat) (ts : List RawTask) :
    (legacyMap tag k ts).length = ts.length := by
  induction ts generalizing k with
  | nil => rfl
  | cons r rest ih => simp [legacyMap, ih]

theorem legacyMap_getElem? (tag : String) (k : Nat) (ts : List RawTask) (i : Nat) :
    (legacyMap tag k ts)[i]? =
      (ts[i]?).map fun r =>
        RawTask.item ⟨"legacy-" ++ tag ++ "-" ++ toString (k + i), r.jsText, false⟩ := by
  induction ts generalizing k i with
  | nil => simp [legacyMap]
  | cons r rest ih =>
    cases i with
    | zero => simp [legacyMap]
    | succ j =>
      have h : k + (j + 1) = (k + 1) + j := by omega
      simp only [legacyMap, List.getElem?_cons_succ, h]
      exact ih (k + 1) j

theorem aiMap_length (now : Nat) (k : Nat) (ts : List String) :
    (aiMap now k ts).length = ts.length := by
  induction ts generalizing k with
  | nil => rfl
  | cons t rest ih => simp [aiMap, ih]

theorem aiMap_getElem? (now : Nat) (k : Nat) (ts : List String) (i : Nat) :
    (aiMap now k ts)[i]? =
      (ts[i]?).map fun t =>
        TaskItem.mk ("ai-" ++ toString now ++ "-" ++ toString (k + i)) t false := by
  induction ts generalizing k i with
  | nil => simp [aiMap]
  | cons t rest ih =>
    cases i with
    | zero => simp [aiMap]
    | succ j =>
      have h : k + (j + 1) = (k + 1) + j := by omega
      simp only [aiMap, List.getElem?_cons_succ, h]
      exact ih (k + 1) j

theorem headIsLegacyString_legacyMap (tag : String) (k : Nat) (ts : List RawTask) :
    headIsLegacyString (legacyMap tag k ts) = false := by
  cases ts <;> rfl

theorem headIsLegacyString_of_all_items (ts : List RawTask)
    (h : ts.all RawTask.isItem = true) : headIsLegacyString ts = false := by
  cases ts with
  | nil => rfl
  | cons r rest =>
    cases r with
    | str s => simp [RawTask.isItem, RawTask.isLegacyString] at h
    | item t => rfl

/-! ## Claims about task normalization (C1, C6) -/

/-- C1 (amended).  The CalendarView normalizer `getTasksForEntry` satisfies
the claim exactly: on a list of plain strings it returns a same-length,
same-order list of structured items whose element at index `i` has the
original text, `completed = false`, and id exactly `legacy-<date>-<i>`, and
it is deterministic (a pure function of the date and the task list).  The
RecordView normalizer `normalizeTasks`, however, mints its ids from the
call-time clock: element `i` gets id `legacy-<Date.now()>-<i>`, which is
neither date-based nor stable across calls. -/
theorem legacy_migration_ids (d : String) (now : Nat) (strs : List String) :
    (getTasksForEntry d (some (strs.map RawTask.str))).length = strs.length ∧
    (∀ i, i < strs.length →
      (getTasksForEntry d (some (strs.map RawTask.str)))[i]? =
        (strs[i]?).map fun s =>
          RawTask.item ⟨"legacy-" ++ d ++ "-" ++ toString i, s, false⟩) ∧
    (∀ i, i < strs.length →
      (normalizeTasks now (some (strs.map RawTask.str)))[i]? =
        (strs[i]?).map fun s =>
          RawTask.item ⟨"legacy-" ++ toString now ++ "-" ++ toString i, s, false⟩) := by
  refine ⟨?_, ?_, ?_⟩
  · cases strs with
    | nil => rfl
    | cons s rest =>
      simp [getTasksForEntry, headIsLegacyString, legacyMap_length]
  · intro i hi
    cases strs with
    | nil => simp at hi
    | cons s rest =>
      show (legacyMap d 0 ((s :: rest).map RawTask.str))[i]? = _
      rw [legacyMap_getElem?, List.getElem?_map]
      simp only [Option.map_map, Nat.zero_add]
      rfl
  · intro i hi
    cases strs with
    | nil => simp at hi
    | cons s rest =>
      show (legacyMap (toString now) 0 ((s :: rest).map RawTask.str))[i]? = _
      rw [legacyMap_getElem?, List.getElem?_map]
      simp only [Option.map_map, Nat.zero_add]
      rfl

/-- Witness for C1 (amended): the spec's own example, on both normalizers,
with `Date.now() = 1700000000000` for the RecordView one. -/
theorem legacy_migration_ids_witness :
    (getTasksForEntry "2024-01-05" (some (["buy milk", "call mom"].map RawTask.str))).length = 2 ∧
    (getTasksForEntry "2024-01-05" (some (["buy milk", "call mom"].map RawTask.str)))[0]? =
      some (RawTask.item ⟨"legacy-2024-01-05-0", "buy milk", false⟩) ∧
    (getTasksForEntry "2024-01-05" (some (["buy milk", "call mom"].map RawTask.str)))[1]? =
      some (RawTask.item ⟨"legacy-2024-01-05-1", "call mom", false⟩) ∧
    (normalizeTasks 1700000000000 (some (["buy milk", "call mom"].map RawTask.str)))[0]? =
      some (RawTask.item ⟨"legacy-1700000000000-0", "buy milk", false⟩) := by
  have h := legacy_migration_ids "2024-01-05" 1700000000000 ["buy milk", "call mom"]
  refine ⟨h.1, ?_, ?_, ?_⟩
  · rw [h.2.1 0 (by decide)]; rfl
  · rw [h.2.1 1 (by decide)]; rfl
  · rw [h.2.2 0 (by decide)]; rfl

/-- C1 counterexample.  At the spec's example input, the RecordView
normalizer `normalizeTasks` (called with `Date.now() = 1700000000000`) does
not produce the claimed ids `legacy-2024-01-05-0` / `legacy-2024-01-05-1`:
its ids come from the clock, not from the entry date. -/
theorem legacy_migration_claim_counterexample :
    ¬ (normalizeTasks 1700000000000
          (some [RawTask.str "buy milk", RawTask.str "call mom"]) =
        [RawTask.item ⟨"legacy-2024-01-05-0", "buy milk", false⟩,
         RawTask.item ⟨"legacy-2024-01-05-1", "call mom", false⟩]) := by
  decide

/-- C6.  Normalization is idempotent: an already-structured task list is
returned identically by both normalizers (same ids, texts, flags, order),
the output of either normalizer is a fixed point of `getTasksForEntry`
(resp. `normalizeTasks`, even across different clock readings), so
`normalize (normalize x) = normalize x` for every input `x`. -/
theorem normalization_idempotent :
    (∀ d ts, ts.all RawTask.isItem = true → getTasksForEntry d (some ts) = ts) ∧
    (∀ now ts, ts.all RawTask.isItem = true → normalizeTasks now (some ts) = ts) ∧
    (∀ d x, getTasksForEntry d (some (getTasksForEntry d x)) = getTasksForEntry d x) ∧
    (∀ n1 n2 x, normalizeTasks n2 (some (normalizeTasks n1 x)) = normalizeTasks n1 x) := by
  refine ⟨?_, ?_, ?_, ?_⟩
  · intro d ts h
    simp [getTasksForEntry, headIsLegacyString_of_all_items ts h]
  · intro now ts h
    cases ts with
    | nil => rfl
    | cons r rest =>
      simp [normalizeTasks, headIsLegacyString_of_all_items _ h]
  · intro d x
    cases x with
    | none => rfl
    | some ts =>
      by_cases h : headIsLegacyString ts = true
      · simp [getTasksForEntry, h, headIsLegacyString_legacyMap]
      · simp [getTasksForEntry, h]
  · intro n1 n2 x
    cases x with
    | none => rfl
    | some ts =>
      cases ts with
      | nil => rfl
      | cons r rest =>
        by_cases h : headIsLegacyString (r :: rest) = true
        · have hin : normalizeTasks n1 (some (r :: rest)) =
              legacyMap (toString n1) 0 (r :: rest) := by
            simp [normalizeTasks, h]
          rw [hin]
          simp [normalizeTasks, legacyMap, headIsLegacyString]
        · have hin : normalizeTasks n1 (some (r :: rest)) = r :: rest := by
            simp [normalizeTasks, h]
          rw [hin]
          simp [normalizeTasks, h]

/-- Witness for C6: concrete instantiations of all four conjuncts. -/
theorem normalization_idempotent_witness :
    getTasksForEntry "2024-01-05" (some [RawTask.item ⟨"ai-1-0", "rest", true⟩]) =
      [RawTask.item ⟨"ai-1-0", "rest", true⟩] ∧
    normalizeTasks 7 (some [RawTask.item ⟨"ai-1-0", "rest", true⟩]) =
      [RawTask.item ⟨"ai-1-0", "rest", true⟩] ∧
    getTasksForEntry "2024-01-05"
        (some (getTasksForEntry "2024-01-05" (some [RawTask.str "nap"]))) =
      getTasksForEntry "2024-01-05" (some [RawTask.str "nap"]) ∧
    normalizeTasks 8 (some (normalizeTasks 7 (some [RawTask.str "nap"]))) =
      normalizeTasks 7 (some [RawTask.str "nap"]) := by
  exact ⟨normalization_idempotent.1 "2024-01-05" _ (by decide),
         normalization_idempotent.2.1 7 _ (by decide),
         normalization_idempotent.2.2.1 "2024-01-05" _,
         normalization_idempotent.2.2.2 7 8 _⟩

/-! ## Claim about the post-analysis merge (C2) -/

/-- C2.  The post-analysis merge appends: the merged list has length
`len(T) + n`, its first `len(T)` elements are exactly the existing tasks in
their original order, and the element at position `len(T) + i` is a fresh
structured task with id `ai-<timestamp>-<i>`, the `i`-th analysis string as
text, and `completed = false`; nothing is replaced, dropped, or
de-duplicated. -/
theorem merge_preserves_existing_tasks (now : Nat) (prevTasks : List TaskItem)
    (aiStrings : List String) :
    (mergeAnalyzedTasks now prevTasks aiStrings).length =
      prevTasks.length + aiStrings.length ∧
    (mergeAnalyzedTasks now prevTasks aiStrings).take prevTasks.length = prevTasks ∧
    ∀ i, i < aiStrings.length →
      (mergeAnalyzedTasks now prevTasks aiStrings)[prevTasks.length + i]? =
        (aiStrings[i]?).map fun t =>
          TaskItem.mk ("ai-" ++ toString now ++ "-" ++ toString i) t false := by
  refine ⟨?_, ?_, ?_⟩
  · simp [mergeAnalyzedTasks, aiMap_length]
  · simp [mergeAnalyzedTasks, List.take_left]
  · intro i hi
    have hlen : prevTasks.length ≤ prevTasks.length + i := by omega
    simp only [mergeAnalyzedTasks]
    rw [List.getElem?_append_right hlen]
    have : prevTasks.length + i - prevTasks.length = i := by omega
    rw [this, aiMap_getElem?]
    simp

/-- Witness for C2: one existing task and two analysis strings at
`Date.now() = 42`. -/
theorem merge_preserves_existing_tasks_witness :
    (mergeAnalyzedTasks 42 [⟨"manual-7", "water plants", true⟩] ["buy milk", "call mom"]).length = 3 ∧
    (mergeAnalyzedTasks 42 [⟨"manual-7", "water plants", true⟩] ["buy milk", "call mom"]).take 1 =
      [⟨"manual-7", "water plants", true⟩] ∧
    (mergeAnalyzedTasks 42 [⟨"manual-7", "water plants", true⟩] ["buy milk", "call mom"])[1]? =
      some ⟨"ai-42-0", "buy milk", false⟩ := by
  have h := merge_preserves_existing_tasks 42 [⟨"manual-7", "water plants", true⟩]
    ["buy milk", "call mom"]
  refine ⟨h.1, h.2.1, ?_⟩
  rw [show (1 : Nat) = List.length [(⟨"manual-7", "water plants", true⟩ : TaskItem)] + 0 from rfl,
     h.2.2 0 (by decide)]
  rfl

/-! ## Claims about the entry store (C7, C10) -/

theorem filter_filter_of_imp (p q : α → Bool) (h : ∀ a, q a = true → p a = true)
    (l : List α) : (l.filter p).filter q = l.filter q := by
  induction l with
  | nil => rfl
  | cons a l ih =>
    by_cases hq : q a = true
    · have hp := h a hq
      simp [List.filter_cons, hp, hq, ih]
    · by_cases hp : p a = true <;> simp [List.filter_cons, hp, hq, ih]

theorem filter_filter_of_incompat (p q : α → Bool) (h : ∀ a, p a = true → q a = false)
    (l : List α) : (l.filter p).filter q = [] := by
  induction l with
  | nil => rfl
  | cons a l ih =>
    by_cases hp : p a = true
    · have hq := h a hp
      simp [List.filter_cons, hp, hq, ih]
    · simp [List.filter_cons, hp, ih]

/-- C7.  Saving two entries with the same date, in either starting store,
leaves exactly one entry for that date — the most recently saved one, as a
full replacement — among the entries `getEntries` returns. -/
theorem save_overwrites_same_date (store : List JournalEntry) (e1 e2 : JournalEntry)
    (d : String) (h1 : e1.date = d) (h2 : e2.date = d) :
    (getEntries (saveEntry e2 (saveEntry e1 store))).filter (fun e => e.date == d) =
      [e2] := by
  have hkey : ∀ a : JournalEntry, (a.date != e2.date) = true → (a.date == d) = false := by
    intro a ha
    rw [bne_iff_ne] at ha
    rw [beq_eq_false_iff_ne, ← h2]
    exact ha
  simp only [getEntries, saveEntry, List.filter_append]
  rw [filter_filter_of_incompat _ _ hkey]
  simp [List.filter_cons, h2]

/-- Witness for C7: two entries for 2024-01-05 saved into the empty store. -/
theorem save_overwrites_same_date_witness :
    (getEntries (saveEntry ⟨"2", "2024-01-05", none, [], "later", "📝", "", "calm", 6, [], 1⟩
        (saveEntry ⟨"1", "2024-01-05", none, [], "first", "📝", "", "happy", 8, [], 0⟩ []))).filter
      (fun e => e.date == "2024-01-05") =
      [⟨"2", "2024-01-05", none, [], "later", "📝", "", "calm", 6, [], 1⟩] :=
  save_overwrites_same_date [] _ _ "2024-01-05" rfl rfl

/-- C10.  Frame property of the store: saving an entry leaves the entries
of every other date untouched (same entries, same order); deleting a date
removes exactly the entries of that date, leaving every other date's
entries untouched. -/
theorem store_frame_properties (store : List JournalEntry) (e : JournalEntry)
    (dOther dDel : String) :
    (dOther ≠ e.date →
      (getEntries (saveEntry e store)).filter (fun x => x.date == dOther) =
        (getEntries store).filter (fun x => x.date == dOther)) ∧
    (dOther ≠ dDel →
      (getEntries (deleteEntry dDel store)).filter (fun x => x.date == dOther) =
        (getEntries store).filter (fun x => x.date == dOther)) ∧
    (getEntries (deleteEntry dDel store)).filter (fun x => x.date == dDel) = [] := by
  refine ⟨?_, ?_, ?_⟩
  · intro hne
    have hImp : ∀ a : JournalEntry, (a.date == dOther) = true → (a.date != e.date) = true := by
      intro a ha
      rw [beq_iff_eq] at ha
      rw [bne_iff_ne, ha]
      exact hne
    have he : (e.date == dOther) = false := by
      rw [beq_eq_false_iff_ne]
      exact fun hh => hne hh.symm
    simp only [getEntries, saveEntry, List.filter_append]
    rw [filter_filter_of_imp _ _ hImp]
    simp [List.filter_cons, he]
  · intro hne
    have hImp : ∀ a : JournalEntry, (a.date == dOther) = true → (a.date != dDel) = true := by
      intro a ha
      rw [beq_iff_eq] at ha
      rw [bne_iff_ne, ha]
      exact hne
    simp only [getEntries, deleteEntry]
    rw [filter_filter_of_imp _ _ hImp]
  · simp only [getEntries, deleteEntry]
    apply filter_filter_of_incompat
    intro a ha
    rw [bne_iff_ne] at ha
    rw [beq_eq_false_iff_ne]
    exact ha

/-- Witness for C10: a one-entry store for 2024-01-04, a save for
2024-01-05 and a delete of 2024-01-05 both leave it untouched, and the
delete empties its own date. -/
theorem store_frame_properties_witness :
    (getEntries (saveEntry ⟨"2", "2024-01-05", none, [], "", "📝", "", "calm", 6, [], 1⟩
        [⟨"1", "2024-01-04", none, [], "", "📝", "", "happy", 8, [], 0⟩])).filter
      (fun x => x.date == "2024-01-04") =
      (getEntries [(⟨"1", "2024-01-04", none, [], "", "📝", "", "happy", 8, [], 0⟩ :
        JournalEntry)]).filter (fun x => x.date == "2024-01-04") ∧
    (getEntries (deleteEntry "2024-01-05"
        [⟨"1", "2024-01-04", none, [], "", "📝", "", "happy", 8, [], 0⟩])).filter
      (fun x => x.date == "2024-01-04") =
      (getEntries [(⟨"1", "2024-01-04", none, [], "", "📝", "", "happy", 8, [], 0⟩ :
        JournalEntry)]).filter (fun x => x.date == "2024-01-04") ∧
    (getEntries (deleteEntry "2024-01-05"
        [⟨"1", "2024-01-04", none, [], "", "📝", "", "happy", 8, [], 0⟩])).filter
      (fun x => x.date == "2024-01-05") = [] := by
  have h := store_frame_properties
    [⟨"1", "2024-01-04", none, [], "", "📝", "", "happy", 8, [], 0⟩]
    ⟨"2", "2024-01-05", none, [], "", "📝", "", "calm", 6, [], 1⟩
    "2024-01-04" "2024-01-05"
  exact ⟨h.1 (by decide), h.2.1 (by decide), h.2.2⟩

/-! ## Claims about the mood/color resolver (C8, C9) -/

theorem MOOD_LABELS_none_of_palette_none (key : String) (h : MOOD_PALETTE key = none) :
    MOOD_LABELS key = none := by
  unfold MOOD_LABELS
  split <;> simp_all [MOOD_PALETTE]

/-- C8 (amended).  Unrecognized mood keys fall back to the `neutral`
palette for both color resolvers — in particular
`resolve("unknown_key", tier) = resolve("neutral", tier)` for every tier —
but the Chinese label lookup falls back to the raw key string itself, not
to `neutral`'s label (and the English rendering always shows the raw key
directly). -/
theorem unknown_mood_key_fallback (key : String) (score : Nat) (t : MoodIntensity)
    (h : MOOD_PALETTE key = none) :
    getMoodColor key score t = getMoodColor "neutral" score t ∧
    getMoodColorByScore key score = getMoodColorByScore "neutral" score ∧
    moodLabelZh key = key := by
  have hn : MOOD_PALETTE "neutral" = some ⟨"#F2F0E9", "#A3A398", "#5C5C54"⟩ := rfl
  refine ⟨?_, ?_, ?_⟩
  · simp [getMoodColor, moodPaletteOf, safeMoodKey, h, hn]
  · simp [getMoodColorByScore, moodPaletteOf, safeMoodKey, h, hn]
  · simp [moodLabelZh, jsOrS, MOOD_LABELS_none_of_palette_none key h]

/-- Witness for C8 (amended): the unrecognized key `"unknown_key"` at
score 5, strong tier. -/
theorem unknown_mood_key_fallback_witness :
    getMoodColor "unknown_key" 5 MoodIntensity.strong =
      getMoodColor "neutral" 5 MoodIntensity.strong ∧
    getMoodColorByScore "unknown_key" 5 = getMoodColorByScore "neutral" 5 ∧
    moodLabelZh "unknown_key" = "unknown_key" :=
  unknown_mood_key_fallback "unknown_key" 5 MoodIntensity.strong (by decide)

/-- C8 counterexample.  The claim that label lookup also falls back to the
`neutral` key's value fails at `"unknown_key"`: the rendered label is the
raw key string `"unknown_key"`, not `neutral`'s label `"平淡"`, so the
conjunction of color fallback and label fallback does not hold. -/
theorem mood_label_fallback_counterexample :
    ¬ (getMoodColor "unknown_key" 5 MoodIntensity.strong =
         getMoodColor "neutral" 5 MoodIntensity.strong ∧
       moodLabelZh "unknown_key" = moodLabelZh "neutral") := by
  decide

/-- C9.  The score-based resolver buckets with inclusive upper-tier
boundaries: scores 8-10 select the strong color, 4-7 the medium color, and
1-3 the light color of the (safe) key's palette. -/
theorem score_tier_boundaries (key : String) (score : Nat) :
    (8 ≤ score → getMoodColorByScore key score = (moodPaletteOf key).strong) ∧
    (4 ≤ score → score ≤ 7 → getMoodColorByScore key score = (moodPaletteOf key).medium) ∧
    (1 ≤ score → score ≤ 3 → getMoodColorByScore key score = (moodPaletteOf key).light) := by
  refine ⟨?_, ?_, ?_⟩
  · intro h8
    simp only [getMoodColorByScore]
    rw [if_pos h8]
  · intro h4 h7
    simp only [getMoodColorByScore]
    rw [if_neg (by omega), if_pos h4]
  · intro h1 h3
    simp only [getMoodColorByScore]
    rw [if_neg (by omega), if_neg (by omega)]

/-- Witness for C9: the boundary scores 8, 4 (inclusive of the higher
tier) and 3, on the `happy` palette. -/
theorem score_tier_boundaries_witness :
    getMoodColorByScore "happy" 8 = (moodPaletteOf "happy").strong ∧
    getMoodColorByScore "happy" 4 = (moodPaletteOf "happy").medium ∧
    getMoodColorByScore "happy" 3 = (moodPaletteOf "happy").light :=
  ⟨(score_tier_boundaries "happy" 8).1 (by decide),
   (score_tier_boundaries "happy" 4).2.1 (by decide) (by decide),
   (score_tier_boundaries "happy" 3).2.2 (by decide) (by decide)⟩

/-! ## Claims about the analysis client (C3, C4, C5) -/

theorem callGPT_ok_of_key (apiKey : String) (p : ParsedAnalysis) (h : apiKey ≠ "") :
    callGPT apiKey (.success p) = (.ok p, 1) := by
  simp [callGPT, h]

theorem callGPT_err_of_key (apiKey : String) (e : String) (h : apiKey ≠ "") :
    callGPT apiKey (.failure e) = (.error e, 1) := by
  simp [callGPT, h]

theorem callGPT_empty_key (outcome : ProviderOutcome) :
    callGPT "" outcome = (.error keyMissingMsg, 0) := rfl

theorem callWhisper_empty_key (whisper : WhisperOutcome) :
    callWhisper "" whisper = (.error keyMissingMsg, 0) := rfl

theorem isQuotaError_keyMissing : isQuotaError keyMissingMsg = false := by decide

theorem composeFinalText_empty_key (audioBase64 : Option String)
    (whisper : WhisperOutcome) (textInput : String) :
    composeFinalText "" audioBase64 whisper textInput =
      (match audioBase64 with
       | none => (textInput, 0)
       | some _ => (textInput ++ "\n(语音转文字失败：请检查Key)", 0)) := by
  cases audioBase64 <;> rfl

/-- C3.  The analysis function is total over every input and provider
behaviour (it is defined as a plain function into `AnalysisResult × Nat`,
mirroring the source's catch-all `try`/`catch` that converts every failure
into a typed result), and when the provider responds but every field is
missing from the parsed response, each field takes its documented default:
emoji `📝`, description `记录中`, key `neutral`, score `5`, tasks `[]`,
and transcription the pre-call composed text. -/
theorem analysis_missing_field_defaults (stored : Option String) (envKey : String)
    (audioBase64 : Option String) (textInput : String) (images : List String)
    (whisper : WhisperOutcome) (hkey : getApiKey stored envKey ≠ "") :
    (analyzeJournalEntry stored envKey audioBase64 textInput images whisper
        (.success ⟨none, none, none, none, none, none⟩)).1 =
      { transcription :=
          (composeFinalText (getApiKey stored envKey) audioBase64 whisper textInput).1
        moodEmoji := "📝"
        moodDescription := "记录中"
        moodKey := "neutral"
        moodScore := 5
        tasks := [] } := by
  simp [analyzeJournalEntry, callGPT_ok_of_key _ _ hkey, jsOrS, jsOrN]

/-- Witness for C3: a configured key, no audio, text `"hi"`, a provider
response with every field missing. -/
theorem analysis_missing_field_defaults_witness :
    (analyzeJournalEntry (some "sk-k") "" none "hi" [] (WhisperOutcome.success "")
        (.success ⟨none, none, none, none, none, none⟩)).1 =
      { transcription := "hi"
        moodEmoji := "📝"
        moodDescription := "记录中"
        moodKey := "neutral"
        moodScore := 5
        tasks := [] } := by
  rw [analysis_missing_field_defaults (some "sk-k") "" none "hi" []
    (WhisperOutcome.success "") (by decide)]
  rfl

/-- C4 (amended).  When the provider failure message carries a quota
marker (in particular `"insufficient_quota"`), analysis returns the demo
mock: moodKey `happy`, emoji `🌤️`, and transcription equal to the input
text when that is non-empty — only for empty input text is it the fixed
demo sentence.  The generic-error fallback instead has moodKey `neutral`
and the gear emoji `⚙️`, so the two fallbacks are distinguishable. -/
theorem quota_fallback_distinguishable (stored : Option String) (envKey : String)
    (audioBase64 : Option String) (textInput : String) (images : List String)
    (whisper : WhisperOutcome) (err errGeneric : String)
    (hkey : getApiKey stored envKey ≠ "")
    (hq : isQuotaError err = true) (hg : isQuotaError errGeneric = false) :
    (analyzeJournalEntry stored envKey audioBase64 textInput images whisper
        (.failure err)).1.moodKey = "happy" ∧
    (analyzeJournalEntry stored envKey audioBase64 textInput images whisper
        (.failure err)).1.moodEmoji = "🌤️" ∧
    (analyzeJournalEntry stored envKey audioBase64 textInput images whisper
        (.failure err)).1.transcription =
      (if textInput = "" then mockDemoText else textInput) ∧
    (analyzeJournalEntry stored envKey audioBase64 textInput images whisper
        (.failure errGeneric)).1.moodKey = "neutral" ∧
    (analyzeJournalEntry stored envKey audioBase64 textInput images whisper
        (.failure errGeneric)).1.moodEmoji = "⚙️" ∧
    (analyzeJournalEntry stored envKey audioBase64 textInput images whisper
        (.failure err)).1.moodKey ≠
      (analyzeJournalEntry stored envKey audioBase64 textInput images whisper
        (.failure errGeneric)).1.moodKey := by
  have hqr := callGPT_err_of_key (getApiKey stored envKey) err hkey
  have hgr := callGPT_err_of_key (getApiKey stored envKey) errGeneric hkey
  refine ⟨?_, ?_, ?_, ?_, ?_, ?_⟩ <;>
    simp [analyzeJournalEntry, hqr, hgr, hq, hg, getMockAnalysis]

/-- Witness for C4 (amended): key configured, text `"abc"`, quota message
`"insufficient_quota"` versus generic message `"network error"`. -/
theorem quota_fallback_distinguishable_witness :
    (analyzeJournalEntry (some "sk-k") "" none "abc" [] (WhisperOutcome.success "")
        (.failure "insufficient_quota")).1.moodKey = "happy" ∧
    (analyzeJournalEntry (some "sk-k") "" none "abc" [] (WhisperOutcome.success "")
        (.failure "insufficient_quota")).1.moodEmoji = "🌤️" ∧
    (analyzeJournalEntry (some "sk-k") "" none "abc" [] (WhisperOutcome.success "")
        (.failure "insufficient_quota")).1.transcription =
      (if ("abc" : String) = "" then mockDemoText else "abc") ∧
    (analyzeJournalEntry (some "sk-k") "" none "abc" [] (WhisperOutcome.success "")
        (.failure "network error")).1.moodKey = "neutral" ∧
    (analyzeJournalEntry (some "sk-k") "" none "abc" [] (WhisperOutcome.success "")
        (.failure "network error")).1.moodEmoji = "⚙️" ∧
    (analyzeJournalEntry (some "sk-k") "" none "abc" [] (WhisperOutcome.success "")
        (.failure "insufficient_quota")).1.moodKey ≠
      (analyzeJournalEntry (some "sk-k") "" none "abc" [] (WhisperOutcome.success "")
        (.failure "network error")).1.moodKey :=
  quota_fallback_distinguishable (some "sk-k") "" none "abc" []
    (WhisperOutcome.success "") "insufficient_quota" "network error"
    (by decide) (by decide) (by decide)

/-- C4 counterexample.  At input text `"abc"` (non-empty), the
quota-failure result's transcription is the input text itself, not the
fixed demo sentence, so the conjunction "moodKey is `happy` and the
transcription is the fixed documented demo transcription" fails. -/
theorem quota_fixed_transcription_counterexample :
    ¬ ((analyzeJournalEntry (some "sk-k") "" none "abc" [] (WhisperOutcome.success "")
          (.failure "insufficient_quota")).1.moodKey = "happy" ∧
       (analyzeJournalEntry (some "sk-k") "" none "abc" [] (WhisperOutcome.success "")
          (.failure "insufficient_quota")).1.transcription = mockDemoText) := by
  decide

/-- C5.  With no configured credential — no stored key with the `sk-`
prefix and an empty build-time default — the analysis function issues zero
HTTP requests (both provider calls throw locally before any fetch) and
returns a result whose moodKey is `neutral`. -/
theorem no_credential_short_circuit (stored : Option String) (envKey : String)
    (audioBase64 : Option String) (textInput : String) (images : List String)
    (whisper : WhisperOutcome) (gpt : ProviderOutcome)
    (hstored : ∀ s, stored = some s → strStartsWith s "sk-" = false)
    (henv : envKey = "") :
    (analyzeJournalEntry stored envKey audioBase64 textInput images whisper gpt).2 = 0 ∧
    (analyzeJournalEntry stored envKey audioBase64 textInput images whisper gpt).1.moodKey =
      "neutral" := by
  have hk : getApiKey stored envKey = "" := by
    cases stored with
    | none => simp [getApiKey, henv, DEFAULT_KEY]
    | some s => simp [getApiKey, henv, DEFAULT_KEY, hstored s rfl]
  constructor <;>
  · simp only [analyzeJournalEntry, hk, callGPT_empty_key,
      composeFinalText_empty_key]
    cases audioBase64 <;> simp [isQuotaError_keyMissing]

/-- Witness for C5: a stored key without the provider prefix and the empty
build-time default, on a text-only input. -/
theorem no_credential_short_circuit_witness :
    (analyzeJournalEntry (some "my-bad-key") "" none "hello" []
        (WhisperOutcome.success "") (.success ⟨none, none, none, none, none, none⟩)).2 = 0 ∧
    (analyzeJournalEntry (some "my-bad-key") "" none "hello" []
        (WhisperOutcome.success "")
        (.success ⟨none, none, none, none, none, none⟩)).1.moodKey = "neutral" :=
  no_credential_short_circuit (some "my-bad-key") "" none "hello" []
    (WhisperOutcome.success "") (.success ⟨none, none, none, none, none, none⟩)
    (by intro s hs; cases hs; decide) rfl

end RecordApp
